import Mathlib

/-!
Shallow embedding of the PodDisruptionBudget reconciler of
`k8sutils/poddisruption.go` (redis-operator).

The reconciler's own code (dispatch, candidate construction, backend-field
copy, annotation merge, stamping order) is translated directly from the Go
source.  External collaborators whose code is not part of the provided
source - the Kubernetes client, the banzaicloud patch library, and the
metadata helpers - are modelled from the spec (each such definition says so
in its doc comment).  Backend calls are represented by an environment
oracle `Env` and an explicit trace of write calls, so that "exactly one
create call" style properties are statements about the trace.
-/

namespace RedisOp

/-- Owner reference metadata; modelled per §9 as a plain `(kind, name, uid)`
relation value. -/
structure OwnerRef where
  kind : String
  name : String
  uid : String
deriving DecidableEq, Repr

/-- Kubernetes object metadata, restricted to the fields the reconciler
reads or writes (`metav1.ObjectMeta`). -/
structure ObjectMeta where
  name : String
  ns : String
  labels : List (String × String)
  annotations : List (String × String)
  resourceVersion : String
  creationTimestamp : Int
  managedFields : String
  ownerReferences : List OwnerRef
deriving DecidableEq, Repr

/-- `intstr.IntOrString`; the reconciler only ever builds the `Int` variant. -/
inductive IntOrString where
  | int (v : Int)
  | str (s : String)
deriving DecidableEq, Repr

/-- `metav1.LabelSelector`, restricted to match labels. -/
structure LabelSelector where
  matchLabels : List (String × String)
deriving DecidableEq, Repr

/-- `policyv1beta1.PodDisruptionBudgetSpec`. -/
structure PodDisruptionBudgetSpec where
  selector : Option LabelSelector
  minAvailable : Option IntOrString
  maxUnavailable : Option IntOrString
deriving DecidableEq, Repr

/-- `policyv1beta1.PodDisruptionBudget`. -/
structure PodDisruptionBudget where
  meta : ObjectMeta
  spec : PodDisruptionBudgetSpec
deriving DecidableEq, Repr

/-- `redisv1beta1.RedisPodDisruptionBudget`: the user-facing policy
configuration.  `minAvailable`/`maxUnavailable` are `*int32` in Go. -/
structure RedisPodDisruptionBudget where
  enabled : Bool
  minAvailable : Option Int
  maxUnavailable : Option Int
deriving DecidableEq, Repr

/-- The `RedisLeader` section of the cluster spec, restricted to the field
this file reads. -/
structure RedisLeader where
  podDisruptionBudget : Option RedisPodDisruptionBudget
deriving DecidableEq, Repr

/-- The cluster spec fields read by the reconciler; `size` is `*int32` in Go
and is dereferenced unconditionally by the source, so it is modelled as a
plain integer. -/
structure RedisClusterSpec where
  size : Int
  redisLeader : RedisLeader
deriving DecidableEq, Repr

/-- `redisv1beta1.RedisCluster`, restricted to the fields read here. -/
structure RedisCluster where
  name : String
  ns : String
  spec : RedisClusterSpec
deriving DecidableEq, Repr

/-- Go `int32` conversion: wrap an integer into `[-2^31, 2^31)`. -/
def int32ofInt (n : Int) : Int := (n + 2 ^ 31) % 2 ^ 32 - 2 ^ 31

/-- Association-list lookup for annotation / label maps. -/
def lookupAnnot : List (String × String) → String → Option String
  | [], _ => none
  | (k2, v) :: rest, k => if k2 = k then some v else lookupAnnot rest k

/-- Association-list insert-or-overwrite for annotation maps. -/
def setAnnot : List (String × String) → String → String → List (String × String)
  | [], k, v => [(k, v)]
  | (k2, v2) :: rest, k, v =>
    if k2 = k then (k, v) :: rest else (k2, v2) :: setAnnot rest k v

/-- The Go loop `for key, value := range stored { if _, ok := new[key]; !ok
{ new[key] = value } }`: copy every binding of `stored` whose key is absent
from `a` into `a`. -/
def mergeAnnots (a : List (String × String)) : List (String × String) → List (String × String)
  | [] => a
  | (k, v) :: rest =>
    mergeAnnots (if lookupAnnot a k = none then setAnnot a k v else a) rest

/-- Modelled from the spec: `getRedisLabels` is not part of the provided
source; §6 treats label generation as external metadata derived from the
cluster name, setup type and role. -/
def getRedisLabels (name setup role : String) : List (String × String) :=
  [("app", name), ("redis_setup_type", setup), ("role", role)]

/-- Modelled from the spec: the controller's own statefulset annotations;
not part of the provided source, treated as opaque metadata (§6). -/
def generateStatefulSetsAnots : List (String × String) :=
  [("redis.opstreelabs.in", "true")]

/-- Modelled from the spec: `generateObjectMetaInformation` is the external
ObjectMetaBuilder of §6, supplying name, namespace, labels and annotations;
backend-owned fields start empty on a freshly built object. -/
def generateObjectMetaInformation (name ns : String)
    (labels annots : List (String × String)) : ObjectMeta :=
  { name := name, ns := ns, labels := labels, annotations := annots,
    resourceVersion := "", creationTimestamp := 0, managedFields := "",
    ownerReferences := [] }

/-- Modelled from the spec: `LabelSelectors` wraps match labels into a
selector; not part of the provided source. -/
def LabelSelectors (labels : List (String × String)) : LabelSelector :=
  { matchLabels := labels }

/-- Modelled from the spec: §9 models the owner reference as an explicit
`(kind, name, uid)` relation value derived from the cluster. -/
def redisClusterAsOwner (cr : RedisCluster) : OwnerRef :=
  { kind := "RedisCluster", name := cr.name, uid := cr.name ++ "-uid" }

/-- Modelled from the spec: `AddOwnerRefToObject` appends the owner
reference to the object's metadata; not part of the provided source. -/
def AddOwnerRefToObject (m : ObjectMeta) (o : OwnerRef) : ObjectMeta :=
  { m with ownerReferences := m.ownerReferences ++ [o] }

/-- Direct translation of `generatePodDisruptionBudgetDef`: build the spec
with the app/role selector, copy `minAvailable` / `maxUnavailable` when the
user set them, and when neither ended up set apply the quorum default
`size/2 + 1` (Go `int32` arithmetic, truncating division). -/
def generatePodDisruptionBudgetDef (cr : RedisCluster) (role : String)
    (pdbMeta : ObjectMeta) (pdbParams : RedisPodDisruptionBudget) :
    PodDisruptionBudget :=
  let s0 : PodDisruptionBudgetSpec :=
    { selector := some (LabelSelectors [("app", cr.name), ("role", role)]),
      minAvailable := none, maxUnavailable := none }
  let s1 : PodDisruptionBudgetSpec := match pdbParams.minAvailable with
    | some v => { s0 with minAvailable := some (IntOrString.int (int32ofInt v)) }
    | none => s0
  let s2 : PodDisruptionBudgetSpec := match pdbParams.maxUnavailable with
    | some v => { s1 with maxUnavailable := some (IntOrString.int (int32ofInt v)) }
    | none => s1
  let quorum : Option IntOrString :=
    some (IntOrString.int (int32ofInt (Int.tdiv cr.spec.size 2 + 1)))
  let s3 :=
    if s2.maxUnavailable = none ∧ s2.minAvailable = none then
      { s2 with minAvailable := quorum }
    else s2
  { meta := AddOwnerRefToObject pdbMeta (redisClusterAsOwner cr), spec := s3 }

/-- Serialization of an optional `IntOrString` bound. -/
def serializeIos : Option IntOrString → String
  | none => "null"
  | some (IntOrString.int v) => "int " ++ toString v
  | some (IntOrString.str s) => "string " ++ s

/-- Serialization of a label map. -/
def serializeLabels : List (String × String) → String
  | [] => ""
  | (k, v) :: rest => k ++ "=" ++ v ++ ";" ++ serializeLabels rest

/-- Serialization of an optional selector. -/
def serializeSelector : Option LabelSelector → String
  | none => "null"
  | some sel => serializeLabels sel.matchLabels

/-- Modelled from the spec: the LastAppliedAnnotator (the banzaicloud
annotator, not part of the provided source) serializes the spec the
reconciler computed into a single annotation value (§4.4, §3
LastAppliedSnapshot). -/
def serializeSpec (s : PodDisruptionBudgetSpec) : String :=
  "selector=" ++ serializeSelector s.selector ++ "|min=" ++
    serializeIos s.minAvailable ++ "|max=" ++ serializeIos s.maxUnavailable

/-- The annotation key under which the last-applied snapshot is stored. -/
def lastAppliedKey : String := "banzaicloud.com/last-applied"

/-- The error produced by a failing serialization (§7 SerializationFailure). -/
def serializationFailureMsg : String := "serialization failure"

/-- The successful effect of `SetLastAppliedAnnotation`: overwrite the
snapshot annotation with the serialization of the object's spec. -/
def stampPure (pdb : PodDisruptionBudget) : PodDisruptionBudget :=
  { pdb with meta := { pdb.meta with
      annotations := setAnnot pdb.meta.annotations lastAppliedKey (serializeSpec pdb.spec) } }

/-- Modelled from the spec: `patch.DefaultAnnotator.SetLastAppliedAnnotation`
stamps the object in place and fails only on serialization error (§4.4);
the possibility of that failure is an environment flag threaded in by the
caller. -/
def stampLastApplied (serializeFails : Bool) (pdb : PodDisruptionBudget) :
    Except String PodDisruptionBudget :=
  if serializeFails then Except.error serializationFailureMsg
  else Except.ok (stampPure pdb)

/-- `PatchResult` of §3: whether the merged object differs from the live
object in any field this reconciler governs. -/
structure PatchResult where
  isEmpty : Bool
deriving DecidableEq, Repr

/-- Modelled from the spec: `patch.DefaultPatchMaker.Calculate` is an
external collaborator; per §2 and §4.3 it "computes whether the live
object, the last-applied snapshot, and the new desired object disagree" on
the fields this reconciler governs - the spec plus the snapshot annotation
(step 5).  The patch is empty iff the live spec equals the candidate spec
and the snapshot annotation on the live object equals the serialization of
the candidate spec. -/
def calculate (storedPdb newPdb : PodDisruptionBudget) : PatchResult :=
  { isEmpty := decide (storedPdb.spec = newPdb.spec ∧
      lookupAnnot storedPdb.meta.annotations lastAppliedKey
        = some (serializeSpec newPdb.spec)) }

/-- Outcome of the `get` backend call (§6 ClusterStateStore): a live
object, a distinguishable NotFound, or another error. -/
inductive GetResult where
  | found (pdb : PodDisruptionBudget)
  | notFound
  | otherError (msg : String)
deriving DecidableEq, Repr

/-- The environment oracle: what the backend returns on this invocation's
calls, and whether serialization fails (§4.4). -/
structure Env where
  getResult : GetResult
  serializeFails : Bool
  createErr : Option String
  updateErr : Option String
  deleteErr : Option String
deriving DecidableEq, Repr

/-- A write round trip issued to the backend. -/
inductive Call where
  | create (ns : String) (pdb : PodDisruptionBudget)
  | update (ns : String) (pdb : PodDisruptionBudget)
  | delete (ns : String) (name : String)
deriving DecidableEq, Repr

/-- `createPodDisruptionBudget`: one create round trip, whose outcome the
environment dictates. -/
def createPodDisruptionBudget (env : Env) (ns : String)
    (pdb : PodDisruptionBudget) : Except String Unit × List Call :=
  (match env.createErr with
    | some e => Except.error e
    | none => Except.ok (), [Call.create ns pdb])

/-- `updatePodDisruptionBudget`: one update round trip. -/
def updatePodDisruptionBudget (env : Env) (ns : String)
    (pdb : PodDisruptionBudget) : Except String Unit × List Call :=
  (match env.updateErr with
    | some e => Except.error e
    | none => Except.ok (), [Call.update ns pdb])

/-- `deletePodDisruptionBudget`: one delete round trip. -/
def deletePodDisruptionBudget (env : Env) (ns : String) (name : String) :
    Except String Unit × List Call :=
  (match env.deleteErr with
    | some e => Except.error e
    | none => Except.ok (), [Call.delete ns name])

/-- Steps 2 and 3 of §4.3 exactly as `patchPodDisruptionBudget` performs
them once the patch is known to be non-empty: copy the backend-owned
fields (`resourceVersion`, `creationTimestamp`, `managedFields`) from the
stored object, then merge in every stored annotation whose key the
candidate does not carry. -/
def preStampCandidate (storedPdb newPdb : PodDisruptionBudget) :
    PodDisruptionBudget :=
  { newPdb with meta := { newPdb.meta with
      resourceVersion := storedPdb.meta.resourceVersion,
      creationTimestamp := storedPdb.meta.creationTimestamp,
      managedFields := storedPdb.meta.managedFields,
      annotations := mergeAnnots newPdb.meta.annotations storedPdb.meta.annotations } }

/-- The object an update sends: the candidate after steps 2-4 of §4.3
(backend-owned fields copied, foreign annotations merged, fresh snapshot
stamped). -/
def mergedCandidate (storedPdb newPdb : PodDisruptionBudget) :
    PodDisruptionBudget :=
  stampPure (preStampCandidate storedPdb newPdb)

/-- Direct translation of `patchPodDisruptionBudget`: compute the patch
between the stored object and the candidate; when it is non-empty, copy
backend-owned fields, merge annotations, stamp the last-applied snapshot
(aborting on serialization failure), and issue the update; when it is
empty, do nothing and succeed. -/
def patchPodDisruptionBudget (env : Env)
    (storedPdb newPdb : PodDisruptionBudget) (ns : String) :
    Except String Unit × List Call :=
  let patchResult := calculate storedPdb newPdb
  if patchResult.isEmpty then (Except.ok (), [])
  else
    match stampLastApplied env.serializeFails (preStampCandidate storedPdb newPdb) with
    | Except.error e => (Except.error e, [])
    | Except.ok stamped => updatePodDisruptionBudget env ns stamped

/-- Direct translation of `CreateOrUpdatePodDisruptionBudget`: fetch the
stored object; on success, patch; on any fetch error, first stamp the
last-applied annotation on the definition (returning the stamping error if
that fails), then create when the fetch error was NotFound and otherwise
return the fetch error. -/
def CreateOrUpdatePodDisruptionBudget (env : Env)
    (pdbDef : PodDisruptionBudget) : Except String Unit × List Call :=
  match env.getResult with
  | GetResult.found storedPDB =>
    patchPodDisruptionBudget env storedPDB pdbDef pdbDef.meta.ns
  | GetResult.notFound =>
    match stampLastApplied env.serializeFails pdbDef with
    | Except.error e => (Except.error e, [])
    | Except.ok stamped => createPodDisruptionBudget env stamped.meta.ns stamped
  | GetResult.otherError msg =>
    match stampLastApplied env.serializeFails pdbDef with
    | Except.error e => (Except.error e, [])
    | Except.ok _ => (Except.error msg, [])

/-- The candidate definition the enabled branch of
`ReconcileRedisPodDisruptionBudget` builds before calling
`CreateOrUpdatePodDisruptionBudget`: metadata from name, namespace, labels
and controller annotations, then the spec from the policy parameters. -/
def pdbDefOf (cr : RedisCluster) (role : String)
    (params : RedisPodDisruptionBudget) : PodDisruptionBudget :=
  generatePodDisruptionBudgetDef cr role
    (generateObjectMetaInformation (cr.name ++ "-" ++ role) cr.ns
      (getRedisLabels cr.name "cluster" role) generateStatefulSetsAnots)
    params

/-- The disabled branch of `ReconcileRedisPodDisruptionBudget`: get the
stored object; if it exists delete it, if NotFound succeed, otherwise
return the fetch error. -/
def disabledBranch (env : Env) (ns pdbName : String) :
    Except String Unit × List Call :=
  match env.getResult with
  | GetResult.found _ => deletePodDisruptionBudget env ns pdbName
  | GetResult.notFound => (Except.ok (), [])
  | GetResult.otherError msg => (Except.error msg, [])

/-- Direct translation of `ReconcileRedisPodDisruptionBudget`: when the
RedisLeader PodDisruptionBudget configuration is present and enabled, build
the definition and create-or-update it; otherwise look for a stored object
and delete it if it exists, treating NotFound as success. -/
def ReconcileRedisPodDisruptionBudget (env : Env) (cr : RedisCluster)
    (role : String) : Except String Unit × List Call :=
  let pdbName := cr.name ++ "-" ++ role
  match cr.spec.redisLeader.podDisruptionBudget with
  | some pdbParams =>
    if pdbParams.enabled then
      CreateOrUpdatePodDisruptionBudget env (pdbDefOf cr role pdbParams)
    else disabledBranch env cr.ns pdbName
  | none => disabledBranch env cr.ns pdbName

/-- Step 5 of §4.3 read off the spec's words: agreement between the live
object and an object on all fields this reconciler governs - the spec plus
the snapshot annotation. -/
def governedMatch (live x : PodDisruptionBudget) : Bool :=
  decide (live.spec = x.spec ∧
    lookupAnnot live.meta.annotations lastAppliedKey
      = lookupAnnot x.meta.annotations lastAppliedKey)

/-- The single write (create or update) of a trace, when there is one. -/
def writeOf : List Call → Option PodDisruptionBudget
  | [Call.create _ p] => some p
  | [Call.update _ p] => some p
  | _ => none

/-- Whether a call is an update. -/
def isUpdateCall : Call → Bool
  | Call.update _ _ => true
  | _ => false

/-- Whether a call is a create. -/
def isCreateCall : Call → Bool
  | Call.create _ _ => true
  | _ => false

/-- Whether a call is a delete. -/
def isDeleteCall : Call → Bool
  | Call.delete _ _ => true
  | _ => false

/-- Number of update calls in a trace. -/
def countUpdates (calls : List Call) : Nat := calls.countP isUpdateCall

/-- The live object after one reconcile invocation, assuming the backend
stores whatever the single write call sent: the written object if the
invocation wrote, the fetched object if it found one and did not write,
and nothing otherwise. -/
def liveAfter (env : Env) (cr : RedisCluster) (role : String) :
    Option PodDisruptionBudget :=
  match writeOf (ReconcileRedisPodDisruptionBudget env cr role).snd with
  | some w => some w
  | none =>
    match env.getResult with
    | GetResult.found s => some s
    | _ => none

/-! ### Concrete fixtures used by witnesses -/

/-- A concrete enabled policy with both bounds unset. -/
def paramsW : RedisPodDisruptionBudget :=
  { enabled := true, minAvailable := none, maxUnavailable := none }

/-- A concrete three-node cluster carrying `paramsW`. -/
def crW : RedisCluster :=
  { name := "redis", ns := "default",
    spec := { size := 3, redisLeader := { podDisruptionBudget := some paramsW } } }

/-- A concrete disabled-policy cluster. -/
def crDisabledW : RedisCluster :=
  { name := "redis", ns := "default",
    spec := { size := 3, redisLeader := { podDisruptionBudget := none } } }

/-- The metadata the reconcile entry point builds for `crW` and role
`leader`. -/
def metaW : ObjectMeta :=
  generateObjectMetaInformation "redis-leader" "default"
    (getRedisLabels "redis" "cluster" "leader") generateStatefulSetsAnots

/-- An environment in which the stored object is absent and every backend
call succeeds. -/
def envNotFoundW : Env :=
  { getResult := GetResult.notFound, serializeFails := false,
    createErr := none, updateErr := none, deleteErr := none }

/-- The object the first reconcile invocation against `envNotFoundW`
creates. -/
def createdW : PodDisruptionBudget := stampPure (pdbDefOf crW "leader" paramsW)

/-- An environment in which the stored object is `createdW` (what the first
invocation wrote) and every backend call succeeds. -/
def envSecondW : Env :=
  { getResult := GetResult.found createdW, serializeFails := false,
    createErr := none, updateErr := none, deleteErr := none }

/-- A stored object carrying a foreign annotation and a stale snapshot:
its spec is empty and its snapshot annotation reads `old`. -/
def storedForeignMeta : ObjectMeta :=
  { name := "redis-leader", ns := "default", labels := [],
    annotations := [("team", "payments"), (lastAppliedKey, "old")],
    resourceVersion := "41", creationTimestamp := 5, managedFields := "mf",
    ownerReferences := [] }

def storedForeignW : PodDisruptionBudget :=
  { meta := storedForeignMeta,
    spec := { selector := none, minAvailable := none, maxUnavailable := none } }

/-- An environment returning `storedForeignW` with every call succeeding. -/
def envForeignW : Env :=
  { getResult := GetResult.found storedForeignW, serializeFails := false,
    createErr := none, updateErr := none, deleteErr := none }

/-- An environment whose fetch fails with a transport error while
serialization also fails. -/
def envBoomSerW : Env :=
  { getResult := GetResult.otherError "boom", serializeFails := true,
    createErr := none, updateErr := none, deleteErr := none }

/-- An environment whose fetch fails with a transport error and
serialization succeeds. -/
def envBoomW : Env :=
  { getResult := GetResult.otherError "boom", serializeFails := false,
    createErr := none, updateErr := none, deleteErr := none }

/-- An environment in which the stored object is absent and serialization
fails. -/
def envSerFailW : Env :=
  { getResult := GetResult.notFound, serializeFails := true,
    createErr := none, updateErr := none, deleteErr := none }

/-! ### Association-list lemmas -/

theorem lookupAnnot_setAnnot_self (a : List (String × String)) (k v : String) :
    lookupAnnot (setAnnot a k v) k = some v := by
  induction a with
  | nil => simp [setAnnot, lookupAnnot]
  | cons hd tl ih =>
    obtain ⟨k2, v2⟩ := hd
    by_cases h : k2 = k
    · simp [setAnnot, lookupAnnot, h]
    · simp [setAnnot, lookupAnnot, h, ih]

theorem lookupAnnot_setAnnot_ne (a : List (String × String)) (k v k2 : String)
    (h : k2 ≠ k) : lookupAnnot (setAnnot a k v) k2 = lookupAnnot a k2 := by
  have h2 : ¬(k = k2) := fun hh => h hh.symm
  induction a with
  | nil => simp [setAnnot, lookupAnnot, h2]
  | cons hd tl ih =>
    obtain ⟨k3, v3⟩ := hd
    by_cases h3 : k3 = k
    · subst h3
      simp [setAnnot, lookupAnnot, h2]
    · simp only [setAnnot, if_neg h3, lookupAnnot]
      by_cases h4 : k3 = k2 <;> simp [h4, ih]

theorem lookupAnnot_mergeAnnots (a b : List (String × String)) (k : String) :
    lookupAnnot (mergeAnnots a b) k =
      match lookupAnnot a k with
      | some v => some v
      | none => lookupAnnot b k := by
  induction b generalizing a with
  | nil =>
    simp only [mergeAnnots]
    cases lookupAnnot a k <;> simp [lookupAnnot]
  | cons hd tl ih =>
    obtain ⟨k2, v2⟩ := hd
    simp only [mergeAnnots]
    cases ha : lookupAnnot a k2 with
    | some v =>
      rw [if_neg (by simp), ih]
      by_cases hk : k2 = k
      · subst hk
        simp [ha]
      · simp only [lookupAnnot, if_neg hk]
    | none =>
      rw [if_pos rfl, ih]
      by_cases hk : k2 = k
      · subst hk
        simp [ha, lookupAnnot_setAnnot_self, lookupAnnot]
      · have hne : k ≠ k2 := fun hh => hk hh.symm
        rw [lookupAnnot_setAnnot_ne a k2 v2 k hne]
        simp only [lookupAnnot, if_neg hk]

/-! ### Structural facts about the merged candidate -/

theorem mergedCandidate_spec (storedPdb newPdb : PodDisruptionBudget) :
    (mergedCandidate storedPdb newPdb).spec = newPdb.spec := rfl

theorem mergedCandidate_snapshot (storedPdb newPdb : PodDisruptionBudget) :
    lookupAnnot (mergedCandidate storedPdb newPdb).meta.annotations lastAppliedKey
      = some (serializeSpec newPdb.spec) := by
  simp [mergedCandidate, stampPure, preStampCandidate, lookupAnnot_setAnnot_self]

theorem mergedCandidate_backendFields (storedPdb newPdb : PodDisruptionBudget) :
    (mergedCandidate storedPdb newPdb).meta.resourceVersion
        = storedPdb.meta.resourceVersion ∧
      (mergedCandidate storedPdb newPdb).meta.creationTimestamp
        = storedPdb.meta.creationTimestamp ∧
      (mergedCandidate storedPdb newPdb).meta.managedFields
        = storedPdb.meta.managedFields :=
  ⟨rfl, rfl, rfl⟩

theorem mergedCandidate_annot_ne (storedPdb newPdb : PodDisruptionBudget)
    (k : String) (hk : k ≠ lastAppliedKey) :
    lookupAnnot (mergedCandidate storedPdb newPdb).meta.annotations k =
      match lookupAnnot newPdb.meta.annotations k with
      | some v => some v
      | none => lookupAnnot storedPdb.meta.annotations k := by
  simp only [mergedCandidate, stampPure, preStampCandidate]
  rw [lookupAnnot_setAnnot_ne _ _ _ _ hk, lookupAnnot_mergeAnnots]

/-! ### Characterization of the two dispatch branches -/

theorem reconcile_enabled_char (env : Env) (cr : RedisCluster) (role : String)
    (params : RedisPodDisruptionBudget)
    (hp : cr.spec.redisLeader.podDisruptionBudget = some params)
    (he : params.enabled = true) :
    ReconcileRedisPodDisruptionBudget env cr role =
      match env.getResult with
      | GetResult.found stored =>
        if (calculate stored (pdbDefOf cr role params)).isEmpty then
          (Except.ok (), [])
        else if env.serializeFails then
          (Except.error serializationFailureMsg, [])
        else
          ((match env.updateErr with
              | some e => Except.error e
              | none => Except.ok ()),
            [Call.update (pdbDefOf cr role params).meta.ns
              (mergedCandidate stored (pdbDefOf cr role params))])
      | GetResult.notFound =>
        if env.serializeFails then (Except.error serializationFailureMsg, [])
        else
          ((match env.createErr with
              | some e => Except.error e
              | none => Except.ok ()),
            [Call.create (pdbDefOf cr role params).meta.ns
              (stampPure (pdbDefOf cr role params))])
      | GetResult.otherError msg =>
        if env.serializeFails then (Except.error serializationFailureMsg, [])
        else (Except.error msg, []) := by
  unfold ReconcileRedisPodDisruptionBudget
  rw [hp]
  simp only [he, if_true]
  unfold CreateOrUpdatePodDisruptionBudget patchPodDisruptionBudget
    stampLastApplied createPodDisruptionBudget updatePodDisruptionBudget
    mergedCandidate
  cases env.getResult with
  | found stored =>
    by_cases hc : (calculate stored (pdbDefOf cr role params)).isEmpty
    · simp [hc]
    · by_cases hs : env.serializeFails <;> simp [hc, hs]
  | notFound =>
    by_cases hs : env.serializeFails <;> simp [hs, stampPure]
  | otherError msg =>
    by_cases hs : env.serializeFails <;> simp [hs]

theorem reconcile_disabled_char (env : Env) (cr : RedisCluster) (role : String)
    (hd : ∀ p, cr.spec.redisLeader.podDisruptionBudget = some p →
      p.enabled = false) :
    ReconcileRedisPodDisruptionBudget env cr role =
      match env.getResult with
      | GetResult.found _ =>
        ((match env.deleteErr with
            | some e => Except.error e
            | none => Except.ok ()),
          [Call.delete cr.ns (cr.name ++ "-" ++ role)])
      | GetResult.notFound => (Except.ok (), [])
      | GetResult.otherError msg => (Except.error msg, []) := by
  unfold ReconcileRedisPodDisruptionBudget
  cases hcr : cr.spec.redisLeader.podDisruptionBudget with
  | some p =>
    simp only [hd p hcr, if_false]
    unfold disabledBranch deletePodDisruptionBudget
    cases env.getResult <;> rfl
  | none =>
    unfold disabledBranch deletePodDisruptionBudget
    cases env.getResult <;> rfl

theorem stampPure_spec (pdb : PodDisruptionBudget) :
    (stampPure pdb).spec = pdb.spec := rfl

theorem stampPure_snapshot (pdb : PodDisruptionBudget) :
    lookupAnnot (stampPure pdb).meta.annotations lastAppliedKey
      = some (serializeSpec pdb.spec) := by
  simp [stampPure, lookupAnnot_setAnnot_self]

theorem calculate_isEmpty_iff (storedPdb newPdb : PodDisruptionBudget) :
    (calculate storedPdb newPdb).isEmpty = true ↔
      storedPdb.spec = newPdb.spec ∧
        lookupAnnot storedPdb.meta.annotations lastAppliedKey
          = some (serializeSpec newPdb.spec) := by
  simp [calculate]

/-! ### Arithmetic facts -/

theorem int32ofInt_eq_self (v : Int) (h1 : -2 ^ 31 ≤ v) (h2 : v < 2 ^ 31) :
    int32ofInt v = v := by
  unfold int32ofInt
  omega

theorem int32ofInt_quorum (n : Int) (h1 : 1 ≤ n) (h2 : n < 2 ^ 31) :
    int32ofInt (Int.tdiv n 2 + 1) = n / 2 + 1 := by
  rw [Int.tdiv_eq_ediv (by omega) (by omega)]
  unfold int32ofInt
  omega

/-! ### Claims -/

/-- C2: for an enabled desired policy with both bounds unset and cluster
size N ≥ 1 (within `int32` range), the built object's `minAvailable` is
`floor(N/2) + 1` and `maxUnavailable` is unset; when the user set exactly
one bound, that bound is copied verbatim and the quorum default is not
applied. -/
theorem c2_quorum_default (cr : RedisCluster) (role : String) (m : ObjectMeta)
    (params : RedisPodDisruptionBudget)
    (hN1 : 1 ≤ cr.spec.size) (hN2 : cr.spec.size < 2 ^ 31) :
    (params.minAvailable = none → params.maxUnavailable = none →
      (generatePodDisruptionBudgetDef cr role m params).spec.minAvailable
          = some (IntOrString.int (cr.spec.size / 2 + 1)) ∧
        (generatePodDisruptionBudgetDef cr role m params).spec.maxUnavailable
          = none) ∧
    (∀ v, params.minAvailable = some v → params.maxUnavailable = none →
      -2 ^ 31 ≤ v → v < 2 ^ 31 →
      (generatePodDisruptionBudgetDef cr role m params).spec.minAvailable
          = some (IntOrString.int v) ∧
        (generatePodDisruptionBudgetDef cr role m params).spec.maxUnavailable
          = none) ∧
    (∀ v, params.maxUnavailable = some v → params.minAvailable = none →
      -2 ^ 31 ≤ v → v < 2 ^ 31 →
      (generatePodDisruptionBudgetDef cr role m params).spec.maxUnavailable
          = some (IntOrString.int v) ∧
        (generatePodDisruptionBudgetDef cr role m params).spec.minAvailable
          = none) := by
  refine ⟨fun hmin hmax => ?_, fun v hmin hmax hv1 hv2 => ?_,
    fun v hmax hmin hv1 hv2 => ?_⟩
  · simp [generatePodDisruptionBudgetDef, hmin, hmax,
      int32ofInt_quorum cr.spec.size hN1 hN2]
  · simp [generatePodDisruptionBudgetDef, hmin, hmax,
      int32ofInt_eq_self v hv1 hv2]
  · simp [generatePodDisruptionBudgetDef, hmin, hmax,
      int32ofInt_eq_self v hv1 hv2]

/-- C2 witness: at cluster size 3 with both bounds unset, the quorum
default sets `minAvailable` to `3/2 + 1 = 2` and leaves `maxUnavailable`
unset. -/
theorem c2_quorum_default_witness :
    (generatePodDisruptionBudgetDef crW "leader" metaW paramsW).spec.minAvailable
        = some (IntOrString.int (crW.spec.size / 2 + 1)) ∧
      (generatePodDisruptionBudgetDef crW "leader" metaW paramsW).spec.maxUnavailable
        = none :=
  (c2_quorum_default crW "leader" metaW paramsW (by decide) (by decide)).1 rfl rfl

/-- C3: the emptiness decision the code takes (a single `Calculate` on the
raw candidate, before the in-place mutations) coincides with the §4.3
step-5 comparison of the live object against the candidate after steps 2-4
have been applied, and that comparison covers exactly the governed fields:
the spec plus the snapshot annotation. -/
theorem c3_diff_on_merged_candidate (storedPdb newPdb : PodDisruptionBudget) :
    (calculate storedPdb newPdb).isEmpty
      = governedMatch storedPdb (mergedCandidate storedPdb newPdb) := by
  unfold calculate governedMatch
  rw [decide_eq_decide, mergedCandidate_spec, mergedCandidate_snapshot]

/-- C7: with the desired policy disabled or absent, a present live object
triggers exactly one delete call; NotFound yields success with zero write
calls; any other fetch error is returned. -/
theorem c7_disable_path (env : Env) (cr : RedisCluster) (role : String)
    (hd : ∀ p, cr.spec.redisLeader.podDisruptionBudget = some p →
      p.enabled = false) :
    (∀ stored, env.getResult = GetResult.found stored →
      (ReconcileRedisPodDisruptionBudget env cr role).snd
        = [Call.delete cr.ns (cr.name ++ "-" ++ role)]) ∧
    (env.getResult = GetResult.notFound →
      ReconcileRedisPodDisruptionBudget env cr role = (Except.ok (), [])) ∧
    (∀ msg, env.getResult = GetResult.otherError msg →
      ReconcileRedisPodDisruptionBudget env cr role
        = (Except.error msg, [])) := by
  rw [reconcile_disabled_char env cr role hd]
  refine ⟨fun stored hg => ?_, fun hg => ?_, fun msg hg => ?_⟩ <;> rw [hg]

/-- C7 witness: a disabled policy with no live object issues zero calls and
returns success. -/
theorem c7_disable_path_witness :
    ReconcileRedisPodDisruptionBudget envNotFoundW crDisabledW "leader"
      = (Except.ok (), []) :=
  (c7_disable_path envNotFoundW crDisabledW "leader"
    (fun p hp => by cases hp)).2.1 rfl

/-- C1: with the policy enabled (and serialization succeeding), an absent
live object leads to exactly one create call carrying the desired
definition (stamped); a present live object leads to the diff being
computed and, when it is empty, no write call, otherwise exactly one
update call. -/
theorem c1_state_machine (env : Env) (cr : RedisCluster) (role : String)
    (params : RedisPodDisruptionBudget)
    (hp : cr.spec.redisLeader.podDisruptionBudget = some params)
    (he : params.enabled = true)
    (hs : env.serializeFails = false) :
    (env.getResult = GetResult.notFound →
      (ReconcileRedisPodDisruptionBudget env cr role).snd
        = [Call.create (pdbDefOf cr role params).meta.ns
            (stampPure (pdbDefOf cr role params))]) ∧
    (∀ stored, env.getResult = GetResult.found stored →
      ((calculate stored (pdbDefOf cr role params)).isEmpty = true →
        (ReconcileRedisPodDisruptionBudget env cr role).snd = []) ∧
      ((calculate stored (pdbDefOf cr role params)).isEmpty = false →
        (ReconcileRedisPodDisruptionBudget env cr role).snd
          = [Call.update (pdbDefOf cr role params).meta.ns
              (mergedCandidate stored (pdbDefOf cr role params))])) := by
  rw [reconcile_enabled_char env cr role params hp he]
  refine ⟨fun hg => ?_, fun stored hg => ⟨fun hc => ?_, fun hc => ?_⟩⟩ <;>
    rw [hg]
  · simp [hs]
  · simp [hc]
  · simp [hc, hs]

/-- C1 witness: at the concrete cluster with no live object, exactly one
create call is issued, carrying the stamped desired definition. -/
theorem c1_state_machine_witness :
    (ReconcileRedisPodDisruptionBudget envNotFoundW crW "leader").snd
      = [Call.create (pdbDefOf crW "leader" paramsW).meta.ns
          (stampPure (pdbDefOf crW "leader" paramsW))] :=
  (c1_state_machine envNotFoundW crW "leader" paramsW rfl rfl rfl).1 rfl

/-- C9: when stamping the last-applied annotation fails, the invocation
issues no write call at all, and on every path on which stamping was
attempted (non-empty diff, absent object, or fetch error) the
serialization error is returned. -/
theorem c9_serialization_aborts (env : Env) (cr : RedisCluster)
    (role : String) (params : RedisPodDisruptionBudget)
    (hp : cr.spec.redisLeader.podDisruptionBudget = some params)
    (he : params.enabled = true)
    (hsf : env.serializeFails = true) :
    (ReconcileRedisPodDisruptionBudget env cr role).snd = [] ∧
    (∀ stored, env.getResult = GetResult.found stored →
      (calculate stored (pdbDefOf cr role params)).isEmpty = false →
      (ReconcileRedisPodDisruptionBudget env cr role).fst
        = Except.error serializationFailureMsg) ∧
    (env.getResult = GetResult.notFound →
      (ReconcileRedisPodDisruptionBudget env cr role).fst
        = Except.error serializationFailureMsg) ∧
    (∀ msg, env.getResult = GetResult.otherError msg →
      (ReconcileRedisPodDisruptionBudget env cr role).fst
        = Except.error serializationFailureMsg) := by
  rw [reconcile_enabled_char env cr role params hp he]
  refine ⟨?_, fun stored hg hc => ?_, fun hg => ?_, fun msg hg => ?_⟩
  · cases hg : env.getResult with
    | found stored =>
      by_cases hc : (calculate stored (pdbDefOf cr role params)).isEmpty <;>
        simp [hc, hsf]
    | notFound => simp [hsf]
    | otherError msg => simp [hsf]
  · rw [hg]
    simp [hc, hsf]
  · rw [hg]
    simp [hsf]
  · rw [hg]
    simp [hsf]

/-- C9 witness: with the object absent and serialization failing, the
invocation returns the serialization error and issues no write. -/
theorem c9_serialization_aborts_witness :
    (ReconcileRedisPodDisruptionBudget envSerFailW crW "leader").snd = [] ∧
      (ReconcileRedisPodDisruptionBudget envSerFailW crW "leader").fst
        = Except.error serializationFailureMsg :=
  ⟨(c9_serialization_aborts envSerFailW crW "leader" paramsW rfl rfl rfl).1,
    (c9_serialization_aborts envSerFailW crW "leader" paramsW rfl rfl rfl).2.2.1 rfl⟩

/-- C8 counterexample: with the fetch failing on a transport error "boom"
while the pre-create stamping also fails, the invocation returns the
serialization error rather than the fetch error, so the fetch error is not
returned unchanged. -/
theorem c8_counterexample :
    ReconcileRedisPodDisruptionBudget envBoomSerW crW "leader"
      = (Except.error serializationFailureMsg, []) ∧
    serializationFailureMsg ≠ "boom" := ⟨rfl, by decide⟩

/-- C8 amended: a fetch failing with an error other than NotFound performs
no create, update, or delete call, and the fetch error is returned
unchanged unless the last-applied stamping performed before the NotFound
check itself fails, in which case the stamping error is returned instead. -/
theorem c8_amended_fetch_error (env : Env) (cr : RedisCluster)
    (role msg : String)
    (hg : env.getResult = GetResult.otherError msg) :
    (ReconcileRedisPodDisruptionBudget env cr role).snd = [] ∧
    ((ReconcileRedisPodDisruptionBudget env cr role).fst = Except.error msg ∨
      (env.serializeFails = true ∧
        (ReconcileRedisPodDisruptionBudget env cr role).fst
          = Except.error serializationFailureMsg)) := by
  cases hcr : cr.spec.redisLeader.podDisruptionBudget with
  | none =>
    rw [reconcile_disabled_char env cr role
      (fun p hp => by rw [hcr] at hp; cases hp), hg]
    exact ⟨rfl, Or.inl rfl⟩
  | some p =>
    cases he : p.enabled with
    | false =>
      rw [reconcile_disabled_char env cr role
        (fun q hq => by rw [hcr] at hq; cases hq; exact he), hg]
      exact ⟨rfl, Or.inl rfl⟩
    | true =>
      rw [reconcile_enabled_char env cr role p hcr he, hg]
      by_cases hsf : env.serializeFails = true
      · refine ⟨?_, Or.inr ⟨hsf, ?_⟩⟩ <;> simp [hsf]
      · refine ⟨?_, Or.inl ?_⟩ <;> simp [hsf]

/-- C8 amended witness: with serialization succeeding, the transport error
is propagated unchanged with no write call. -/
theorem c8_amended_fetch_error_witness :
    (ReconcileRedisPodDisruptionBudget envBoomW crW "leader").snd = [] ∧
    ((ReconcileRedisPodDisruptionBudget envBoomW crW "leader").fst
        = Except.error "boom" ∨
      (envBoomW.serializeFails = true ∧
        (ReconcileRedisPodDisruptionBudget envBoomW crW "leader").fst
          = Except.error serializationFailureMsg)) :=
  c8_amended_fetch_error envBoomW crW "leader" "boom" rfl

/-- C5: every update call carries the resourceVersion, creationTimestamp
and managedFields of the object most recently observed via get, copied
verbatim. -/
theorem c5_backend_fields_roundtrip (env : Env) (cr : RedisCluster)
    (role ns : String) (u : PodDisruptionBudget)
    (hmem : Call.update ns u
      ∈ (ReconcileRedisPodDisruptionBudget env cr role).snd) :
    ∃ stored, env.getResult = GetResult.found stored ∧
      u.meta.resourceVersion = stored.meta.resourceVersion ∧
      u.meta.creationTimestamp = stored.meta.creationTimestamp ∧
      u.meta.managedFields = stored.meta.managedFields := by
  cases hcr : cr.spec.redisLeader.podDisruptionBudget with
  | none =>
    rw [reconcile_disabled_char env cr role
      (fun p hp => by rw [hcr] at hp; cases hp)] at hmem
    cases hg : env.getResult <;> rw [hg] at hmem <;> simp at hmem
  | some p =>
    cases he : p.enabled with
    | false =>
      rw [reconcile_disabled_char env cr role
        (fun q hq => by rw [hcr] at hq; cases hq; exact he)] at hmem
      cases hg : env.getResult <;> rw [hg] at hmem <;> simp at hmem
    | true =>
      rw [reconcile_enabled_char env cr role p hcr he] at hmem
      cases hg : env.getResult with
      | found stored =>
        rw [hg] at hmem
        by_cases hc : (calculate stored (pdbDefOf cr role p)).isEmpty
        · simp [hc] at hmem
        · by_cases hsf : env.serializeFails = true
          · simp [hc, hsf] at hmem
          · simp [hc, hsf] at hmem
            obtain ⟨hns, hu⟩ := hmem
            subst hu
            exact ⟨stored, rfl, rfl, rfl, rfl⟩
      | notFound =>
        rw [hg] at hmem
        by_cases hsf : env.serializeFails = true <;> simp [hsf] at hmem
      | otherError msg =>
        rw [hg] at hmem
        by_cases hsf : env.serializeFails = true <;> simp [hsf] at hmem

/-- C5 witness: at a concrete stored object with resourceVersion 41, the
update sent carries resourceVersion 41 and the stored timestamps. -/
theorem c5_backend_fields_roundtrip_witness :
    ∃ stored, envForeignW.getResult = GetResult.found stored ∧
      (mergedCandidate storedForeignW (pdbDefOf crW "leader" paramsW)).meta.resourceVersion
        = stored.meta.resourceVersion ∧
      (mergedCandidate storedForeignW (pdbDefOf crW "leader" paramsW)).meta.creationTimestamp
        = stored.meta.creationTimestamp ∧
      (mergedCandidate storedForeignW (pdbDefOf crW "leader" paramsW)).meta.managedFields
        = stored.meta.managedFields :=
  c5_backend_fields_roundtrip envForeignW crW "leader" "default"
    (mergedCandidate storedForeignW (pdbDefOf crW "leader" paramsW)) (by decide)

/-- C6 counterexample: the last-applied snapshot key is present on the
stored object (value `old`) and absent from the candidate, yet the object
sent on update carries the freshly stamped snapshot, not the stored value:
the claim's universal quantification over annotation keys fails at the
snapshot key. -/
theorem c6_counterexample :
    lookupAnnot storedForeignW.meta.annotations lastAppliedKey = some "old" ∧
    lookupAnnot (pdbDefOf crW "leader" paramsW).meta.annotations lastAppliedKey
      = none ∧
    (ReconcileRedisPodDisruptionBudget envForeignW crW "leader").snd
      = [Call.update "default"
          (mergedCandidate storedForeignW (pdbDefOf crW "leader" paramsW))] ∧
    lookupAnnot
        (mergedCandidate storedForeignW (pdbDefOf crW "leader" paramsW)).meta.annotations
        lastAppliedKey
      ≠ some "old" := by decide

/-- C6 amended: on every update, each annotation key other than the
last-applied snapshot key behaves as claimed: keys present on the stored
object but absent from the candidate are copied with their stored value,
and keys present on the candidate keep the candidate's value; the snapshot
key itself is overwritten with the fresh snapshot. -/
theorem c6_amended_annot_merge (env : Env) (cr : RedisCluster)
    (role ns : String) (params : RedisPodDisruptionBudget)
    (u stored : PodDisruptionBudget) (k v : String)
    (hp : cr.spec.redisLeader.podDisruptionBudget = some params)
    (he : params.enabled = true)
    (hg : env.getResult = GetResult.found stored)
    (hmem : Call.update ns u
      ∈ (ReconcileRedisPodDisruptionBudget env cr role).snd)
    (hk : k ≠ lastAppliedKey) :
    (lookupAnnot (pdbDefOf cr role params).meta.annotations k = none →
      lookupAnnot stored.meta.annotations k = some v →
      lookupAnnot u.meta.annotations k = some v) ∧
    (lookupAnnot (pdbDefOf cr role params).meta.annotations k = some v →
      lookupAnnot u.meta.annotations k = some v) := by
  rw [reconcile_enabled_char env cr role params hp he, hg] at hmem
  by_cases hc : (calculate stored (pdbDefOf cr role params)).isEmpty = true
  · simp [hc] at hmem
  · by_cases hsf : env.serializeFails = true
    · simp [hc, hsf] at hmem
    · simp [hc, hsf] at hmem
      obtain ⟨hns, hu⟩ := hmem
      subst hu
      rw [mergedCandidate_annot_ne stored (pdbDefOf cr role params) k hk]
      constructor
      · intro hnone hsome
        simp [hnone, hsome]
      · intro hsome
        simp [hsome]

/-- C6 amended witness: the foreign annotation `team=payments` on the
stored object, absent from the candidate, is retained in the written
object. -/
theorem c6_amended_annot_merge_witness :
    (lookupAnnot (pdbDefOf crW "leader" paramsW).meta.annotations "team" = none →
      lookupAnnot storedForeignW.meta.annotations "team" = some "payments" →
      lookupAnnot
          (mergedCandidate storedForeignW (pdbDefOf crW "leader" paramsW)).meta.annotations
          "team"
        = some "payments") ∧
    (lookupAnnot (pdbDefOf crW "leader" paramsW).meta.annotations "team"
        = some "payments" →
      lookupAnnot
          (mergedCandidate storedForeignW (pdbDefOf crW "leader" paramsW)).meta.annotations
          "team"
        = some "payments") :=
  c6_amended_annot_merge envForeignW crW "leader" "default" paramsW
    (mergedCandidate storedForeignW (pdbDefOf crW "leader" paramsW))
    storedForeignW "team" "payments" rfl rfl rfl (by decide) (by decide)

/-- C4: if a first reconcile invocation succeeds and the backend afterwards
holds what that invocation wrote (or found), a second invocation with the
same desired policy issues zero update calls. -/
theorem c4_idempotent (env1 env2 : Env) (cr : RedisCluster) (role : String)
    (params : RedisPodDisruptionBudget) (w s2 : PodDisruptionBudget)
    (hp : cr.spec.redisLeader.podDisruptionBudget = some params)
    (he : params.enabled = true)
    (hok : (ReconcileRedisPodDisruptionBudget env1 cr role).fst = Except.ok ())
    (hw : liveAfter env1 cr role = some w)
    (hspec : s2.spec = w.spec)
    (hann : s2.meta.annotations = w.meta.annotations)
    (hg2 : env2.getResult = GetResult.found s2) :
    countUpdates (ReconcileRedisPodDisruptionBudget env2 cr role).snd = 0 := by
  have hkey : w.spec = (pdbDefOf cr role params).spec ∧
      lookupAnnot w.meta.annotations lastAppliedKey
        = some (serializeSpec (pdbDefOf cr role params).spec) := by
    unfold liveAfter at hw
    rw [reconcile_enabled_char env1 cr role params hp he] at hok hw
    cases hg1 : env1.getResult with
    | found s1 =>
      rw [hg1] at hok hw
      by_cases hc : (calculate s1 (pdbDefOf cr role params)).isEmpty = true
      · simp only [hc, if_true, writeOf, hg1] at hw
        obtain ⟨h1, h2⟩ := (calculate_isEmpty_iff s1 (pdbDefOf cr role params)).mp hc
        cases hw
        exact ⟨h1, h2⟩
      · by_cases hsf : env1.serializeFails = true
        · simp [hc, hsf] at hok
        · simp only [hc, hsf, if_false, Bool.false_eq_true, writeOf] at hw
          cases hw
          exact ⟨mergedCandidate_spec s1 (pdbDefOf cr role params),
            mergedCandidate_snapshot s1 (pdbDefOf cr role params)⟩
    | notFound =>
      rw [hg1] at hok hw
      by_cases hsf : env1.serializeFails = true
      · simp [hsf] at hok
      · simp only [hsf, if_false, Bool.false_eq_true, writeOf] at hw
        cases hw
        exact ⟨stampPure_spec (pdbDefOf cr role params),
          stampPure_snapshot (pdbDefOf cr role params)⟩
    | otherError msg =>
      rw [hg1] at hok
      by_cases hsf : env1.serializeFails = true <;> simp [hsf] at hok
  rw [reconcile_enabled_char env2 cr role params hp he, hg2]
  have hc2 : (calculate s2 (pdbDefOf cr role params)).isEmpty = true :=
    (calculate_isEmpty_iff s2 (pdbDefOf cr role params)).mpr
      ⟨by rw [hspec, hkey.1], by rw [hann, hkey.2]⟩
  simp [hc2, countUpdates]

/-- C4 witness: against the concrete cluster, the invocation after a
successful create computes an empty patch and issues zero update calls. -/
theorem c4_idempotent_witness :
    countUpdates (ReconcileRedisPodDisruptionBudget envSecondW crW "leader").snd
      = 0 :=
  c4_idempotent envNotFoundW envSecondW crW "leader" paramsW createdW createdW
    rfl rfl rfl rfl rfl rfl rfl

/-- C10: the role argument affects only the object's name suffix, its
labels and its pod selector, and for any environment the enable/disable
decision is the same for two invocations differing only in role: deletes
occur for one role exactly when they occur for the other, and likewise for
creates. -/
theorem c10_role_independence (env : Env) (cr : RedisCluster) (r1 r2 : String)
    (params : RedisPodDisruptionBudget) :
    pdbDefOf cr r2 params =
      { meta :=
          { (pdbDefOf cr r1 params).meta with
              name := cr.name ++ "-" ++ r2,
              labels := getRedisLabels cr.name "cluster" r2 },
        spec :=
          { (pdbDefOf cr r1 params).spec with
              selector :=
                some (LabelSelectors [("app", cr.name), ("role", r2)]) } } ∧
    ((ReconcileRedisPodDisruptionBudget env cr r1).snd.any isDeleteCall
      = (ReconcileRedisPodDisruptionBudget env cr r2).snd.any isDeleteCall) ∧
    ((ReconcileRedisPodDisruptionBudget env cr r1).snd.any isCreateCall
      = (ReconcileRedisPodDisruptionBudget env cr r2).snd.any isCreateCall) := by
  refine ⟨?_, ?_⟩
  · cases hmin : params.minAvailable <;> cases hmax : params.maxUnavailable <;>
      simp [pdbDefOf, generatePodDisruptionBudgetDef, hmin, hmax,
        generateObjectMetaInformation, getRedisLabels, AddOwnerRefToObject,
        LabelSelectors, redisClusterAsOwner]
  · cases hcr : cr.spec.redisLeader.podDisruptionBudget with
    | none =>
      rw [reconcile_disabled_char env cr r1
          (fun p hp => by rw [hcr] at hp; cases hp),
        reconcile_disabled_char env cr r2
          (fun p hp => by rw [hcr] at hp; cases hp)]
      cases env.getResult <;> simp [isDeleteCall, isCreateCall]
    | some p =>
      cases he : p.enabled with
      | false =>
        rw [reconcile_disabled_char env cr r1
            (fun q hq => by rw [hcr] at hq; cases hq; exact he),
          reconcile_disabled_char env cr r2
            (fun q hq => by rw [hcr] at hq; cases hq; exact he)]
        cases env.getResult <;> simp [isDeleteCall, isCreateCall]
      | true =>
        rw [reconcile_enabled_char env cr r1 p hcr he,
          reconcile_enabled_char env cr r2 p hcr he]
        cases env.getResult with
        | found stored =>
          by_cases hc1 : (calculate stored (pdbDefOf cr r1 p)).isEmpty = true <;>
            by_cases hc2 : (calculate stored (pdbDefOf cr r2 p)).isEmpty = true <;>
            by_cases hsf : env.serializeFails = true <;>
            simp [hc1, hc2, hsf, isDeleteCall, isCreateCall]
        | notFound =>
          by_cases hsf : env.serializeFails = true <;>
            simp [hsf, isDeleteCall, isCreateCall]
        | otherError msg =>
          by_cases hsf : env.serializeFails = true <;>
            simp [hsf, isDeleteCall, isCreateCall]

end RedisOp
